import Mathlib

/-!
Verification of the two executor functions of the Gemini desktop assistant
(`src/main.py`): `ask_gemini`, which forwards a text query to a generative
model client and normalizes the answer or any failure into a string, and
`execute_command`, which runs a shell command via `subprocess.run` and
normalizes its outcome (stdout, stderr, sentinel, or not-found message)
into a string.

External collaborators are modelled as oracle functions: the model client
is a function from the query to either a response object or a raised
exception, and the operating system is a function from the command string
to a process outcome (ran to completion with an exit status and captured
streams, or failed to start).  Python exception flow is made explicit with
`Except`: the bodies of the `try` blocks may return `.error e`, and the
executors wrap them with handlers mirroring the `except` clauses, so that
"the caller receives a string, never a raised error" is a real theorem
about the handlers rather than a typing triviality.
-/

namespace GeminiAssistant

/-- Response object returned by `model.generate_content`; the code only
reads its `text` attribute (`src/main.py` line 63). -/
structure GeminiResponse where
  text : String
  deriving DecidableEq, Repr

/-- Outcome of one call to the model client: either a response object, or a
raised exception (network failure, quota, malformed response, ...), carried
as its message. -/
inductive GenContentResult where
  | ok (response : GeminiResponse)
  | exn (e : String)
  deriving DecidableEq, Repr

/-- The model client, as seen by `ask_gemini`: one single-turn completion
call, `generate_content`, mapping the query to a result. -/
def ModelClient : Type := String → GenContentResult

/-- Body of the `try` block of `ask_gemini` (`src/main.py` lines 59-63):
call `model.generate_content(query)` and return `response.text`; a raised
exception propagates as `.error`. -/
def ask_gemini_try (model : ModelClient) (query : String) :
    Except String String :=
  match model query with
  | .ok response => .ok response.text
  | .exn e => .error e

/-- Embedding of `ask_gemini` (`src/main.py` lines 44-67).  A falsy
(empty) query returns the fixed error string before the client is invoked;
otherwise the `try` body runs and the bare `except Exception` clause turns
any raised exception into the fixed fallback string. -/
def ask_gemini (model : ModelClient) (query : String) :
    Except String String :=
  if query = "" then
    .ok "Error: No query provided."
  else
    match ask_gemini_try model query with
    | .ok text => .ok text
    | .error _ => .ok "Sorry, I couldn\x27t get a response from the API."

/-- Result of a completed child process as captured by `subprocess.run`
with `capture_output=True, text=True`: exit status plus textual stdout and
stderr. -/
structure CompletedProcess where
  returncode : Int
  stdout : String
  stderr : String
  deriving DecidableEq, Repr

/-- Exceptions `subprocess.run` can raise here: `CalledProcessError` (the
process ran but exited non-zero, raised because of `check=True`, carrying
the captured streams) and `FileNotFoundError` (the command could not be
located/started). -/
inductive SubprocessExn where
  | calledProcessError (returncode : Int) (stdout stderr : String)
  | fileNotFoundError (msg : String)
  deriving DecidableEq, Repr

/-- Outcome the operating system produces for a command string: the
process ran to completion with an exit status and captured streams, or it
could not be started at all. -/
inductive ProcOutcome where
  | ran (returncode : Int) (stdout stderr : String)
  | startFailure (msg : String)
  deriving DecidableEq, Repr

/-- The host OS as seen by `execute_command`: maps a command line to its
process outcome. -/
def HostOS : Type := String → ProcOutcome

/-- Embedding of `subprocess.run(command, shell=True, check=True,
capture_output=True, text=True)` (`src/main.py` lines 86-92): a non-zero
exit status raises `CalledProcessError` (because of `check=True`) with the
captured streams attached; a start failure raises `FileNotFoundError`;
otherwise the `CompletedProcess` is returned. -/
def subprocess_run (os : HostOS) (command : String) :
    Except SubprocessExn CompletedProcess :=
  match os command with
  | .ran returncode stdout stderr =>
      if returncode = 0 then
        .ok ⟨returncode, stdout, stderr⟩
      else
        .error (.calledProcessError returncode stdout stderr)
  | .startFailure msg => .error (.fileNotFoundError msg)

/-- Embedding of `execute_command` (`src/main.py` lines 69-108): run the
command; on success return its stdout if truthy (non-empty) and the fixed
sentinel otherwise; the `except subprocess.CalledProcessError` clause
returns `e.stderr`; the `except FileNotFoundError` clause returns the
fixed message embedding the literal command text. -/
def execute_command (os : HostOS) (command : String) :
    Except SubprocessExn String :=
  match subprocess_run os command with
  | .ok result =>
      if result.stdout ≠ "" then
        .ok result.stdout
      else
        .ok "Command executed successfully (no output)."
  | .error (.calledProcessError _ _ stderr) => .ok stderr
  | .error (.fileNotFoundError _) =>
      .ok ("Error: The command \x27" ++ command ++ "\x27 was not found on your system.")

end GeminiAssistant

namespace GeminiAssistant

/-- C1: for every model client and query, `ask_gemini` returns a string
(`.ok`), and for every host OS and command, `execute_command` returns a
string (`.ok`): every failure raised inside either call is caught at the
boundary and converted into a textual result, so no error propagates to
the caller. -/
theorem C1_executors_always_return_string (model : ModelClient) (query : String)
    (os : HostOS) (command : String) :
    (∃ s : String, ask_gemini model query = .ok s) ∧
    (∃ t : String, execute_command os command = .ok t) := by
  constructor
  · unfold ask_gemini
    by_cases h : query = ""
    · simp [h]
    · simp only [h, if_false]
      cases ask_gemini_try model query with
      | ok text => exact ⟨text, rfl⟩
      | error e => exact ⟨_, rfl⟩
  · unfold execute_command
    cases hr : subprocess_run os command with
    | ok result =>
        by_cases h : result.stdout = ""
        · simp [h]
        · simp [h]
    | error e =>
        cases e with
        | calledProcessError rc out err => exact ⟨err, rfl⟩
        | fileNotFoundError m => exact ⟨_, rfl⟩

/-- C2: when the OS cannot locate/start the requested program
(`FileNotFoundError`), `execute_command` returns the fixed not-found
message with the literal command text embedded in it — the
CommandNotFound outcome, distinct from the non-zero-exit stderr path. -/
theorem C2_command_not_found (os : HostOS) (command msg : String)
    (h : os command = .startFailure msg) :
    execute_command os command =
      .ok ("Error: The command \x27" ++ command ++ "\x27 was not found on your system.") := by
  unfold execute_command subprocess_run
  rw [h]

/-- Witness for C2: a concrete OS that fails to start the program
`frobnicate` yields the fixed message naming that command. -/
theorem C2_command_not_found_witness :
    execute_command (fun _ => .startFailure "No such file or directory") "frobnicate" =
      .ok "Error: The command \x27frobnicate\x27 was not found on your system." :=
  C2_command_not_found (fun _ => .startFailure "No such file or directory")
    "frobnicate" "No such file or directory" rfl

/-- C3: for every non-empty query on which the client raises an exception,
`ask_gemini` catches it and returns the fixed fallback string, never
raising to the caller. -/
theorem C3_client_exception_gives_fallback (model : ModelClient)
    (query e : String) (hq : query ≠ "") (h : model query = .exn e) :
    ask_gemini model query =
      .ok "Sorry, I couldn\x27t get a response from the API." := by
  unfold ask_gemini ask_gemini_try
  rw [if_neg hq, h]

/-- Witness for C3: a concrete client that raises a quota error on a
concrete non-empty query makes `ask_gemini` return the fallback string. -/
theorem C3_client_exception_gives_fallback_witness :
    ("What time is it?" : String) ≠ "" ∧
      ask_gemini (fun _ => .exn "429 quota exhausted") "What time is it?" =
        .ok "Sorry, I couldn\x27t get a response from the API." :=
  ⟨by decide,
    C3_client_exception_gives_fallback (fun _ => .exn "429 quota exhausted")
      "What time is it?" "429 quota exhausted" (by decide) rfl⟩

/-- C4: on the empty (falsy) query, `ask_gemini` returns the fixed
"Error: No query provided." string, and the result does not depend on the
model client at all — `generate_content` is never invoked. -/
theorem C4_empty_query_rejected_without_client_call (model : ModelClient) :
    ask_gemini model "" = .ok "Error: No query provided." ∧
      ∀ other : ModelClient, ask_gemini model "" = ask_gemini other "" := by
  exact ⟨rfl, fun other => rfl⟩

/-- C5: for every command whose process runs but exits with a non-zero
status, `execute_command` returns the captured stderr text, not stdout. -/
theorem C5_nonzero_exit_returns_stderr (os : HostOS)
    (command : String) (rc : Int) (stdout stderr : String)
    (h : os command = .ran rc stdout stderr) (hrc : rc ≠ 0) :
    execute_command os command = .ok stderr := by
  unfold execute_command subprocess_run
  rw [h]
  simp [hrc]

/-- Witness for C5: a concrete process exiting with status 2, stdout
"partial" and stderr "boom" yields exactly "boom". -/
theorem C5_nonzero_exit_returns_stderr_witness :
    execute_command (fun _ => .ran 2 "partial" "boom") "grep x missing.txt" =
      .ok "boom" :=
  C5_nonzero_exit_returns_stderr (fun _ => .ran 2 "partial" "boom")
    "grep x missing.txt" 2 "partial" "boom" rfl (by decide)

/-- C6: for every command that exits with status zero and produces
non-empty stdout, `execute_command` returns exactly that stdout text, with
no trimming or reformatting. -/
theorem C6_zero_exit_returns_stdout_verbatim (os : HostOS)
    (command : String) (stdout stderr : String)
    (h : os command = .ran 0 stdout stderr) (hout : stdout ≠ "") :
    execute_command os command = .ok stdout := by
  unfold execute_command subprocess_run
  rw [h]
  simp [hout]

/-- Witness for C6: a concrete process succeeding with stdout "a\nb\n"
yields exactly "a\nb\n", trailing newline included. -/
theorem C6_zero_exit_returns_stdout_verbatim_witness :
    execute_command (fun _ => .ran 0 "a\nb\n" "") "printf a\\nb\\n" =
      .ok "a\nb\n" :=
  C6_zero_exit_returns_stdout_verbatim (fun _ => .ran 0 "a\nb\n" "")
    "printf a\\nb\\n" "a\nb\n" "" rfl (by decide)

/-- C7: for every command that exits with status zero and produces empty
stdout, `execute_command` returns the fixed sentinel string rather than
the empty string. -/
theorem C7_zero_exit_empty_stdout_sentinel (os : HostOS)
    (command : String) (stderr : String)
    (h : os command = .ran 0 "" stderr) :
    execute_command os command =
      .ok "Command executed successfully (no output)." := by
  unfold execute_command subprocess_run
  rw [h]
  simp

/-- Witness for C7: a concrete process succeeding with empty stdout yields
the sentinel. -/
theorem C7_zero_exit_empty_stdout_sentinel_witness :
    execute_command (fun _ => .ran 0 "" "") "true" =
      .ok "Command executed successfully (no output)." :=
  C7_zero_exit_empty_stdout_sentinel (fun _ => .ran 0 "" "") "true" "" rfl

/-- C8: for every non-empty query on which the client succeeds,
`ask_gemini` returns the response object's `text` field verbatim. -/
theorem C8_success_returns_response_text (model : ModelClient)
    (query : String) (response : GeminiResponse)
    (hq : query ≠ "") (h : model query = .ok response) :
    ask_gemini model query = .ok response.text := by
  unfold ask_gemini ask_gemini_try
  rw [if_neg hq, h]

/-- Witness for C8: the end-to-end scenario with a stubbed client
returning "Argentina won the 2022 FIFA World Cup." yields exactly that
string. -/
theorem C8_success_returns_response_text_witness :
    ("Who won the FIFA World Cup in 2022?" : String) ≠ "" ∧
      ask_gemini (fun _ => .ok ⟨"Argentina won the 2022 FIFA World Cup."⟩)
        "Who won the FIFA World Cup in 2022?" =
        .ok "Argentina won the 2022 FIFA World Cup." :=
  ⟨by decide,
    C8_success_returns_response_text
      (fun _ => .ok ⟨"Argentina won the 2022 FIFA World Cup."⟩)
      "Who won the FIFA World Cup in 2022?"
      ⟨"Argentina won the 2022 FIFA World Cup."⟩ (by decide) rfl⟩

/-- C9: any two executions that both exit with status zero and produce the
same stdout give the same result from `execute_command`, whatever either
process wrote to stderr: on a zero exit status the stderr text is
discarded entirely and never merged into the returned value. -/
theorem C9_success_ignores_stderr (os₁ os₂ : HostOS)
    (c₁ c₂ : String) (stdout stderr₁ stderr₂ : String)
    (h₁ : os₁ c₁ = .ran 0 stdout stderr₁)
    (h₂ : os₂ c₂ = .ran 0 stdout stderr₂) :
    execute_command os₁ c₁ = execute_command os₂ c₂ := by
  unfold execute_command subprocess_run
  rw [h₁, h₂]
  simp

/-- Witness for C9: two successful runs with stdout "ok\n" but different
stderr noise ("" versus "warning: deprecated") return the same value. -/
theorem C9_success_ignores_stderr_witness :
    execute_command (fun _ => .ran 0 "ok\n" "") "echo ok" =
      execute_command (fun _ => .ran 0 "ok\n" "warning: deprecated") "echo ok" :=
  C9_success_ignores_stderr (fun _ => .ran 0 "ok\n" "")
    (fun _ => .ran 0 "ok\n" "warning: deprecated")
    "echo ok" "echo ok" "ok\n" "" "warning: deprecated" rfl rfl

/-- C10: in the non-zero-exit branch `execute_command` returns the
captured stderr unconditionally, so a command that exits non-zero while
writing nothing to stderr yields the empty string — not a sentinel, not a
diagnostic, and not the command's stdout. -/
theorem C10_nonzero_exit_empty_stderr_gives_empty (os : HostOS)
    (command : String) (rc : Int) (stdout : String)
    (h : os command = .ran rc stdout "") (hrc : rc ≠ 0) :
    execute_command os command = .ok "" := by
  unfold execute_command subprocess_run
  rw [h]
  simp [hrc]

/-- Witness for C10: a concrete process exiting with status 1, stdout
"ignored" and empty stderr yields exactly the empty string. -/
theorem C10_nonzero_exit_empty_stderr_gives_empty_witness :
    execute_command (fun _ => .ran 1 "ignored" "") "myscript.sh" = .ok "" :=
  C10_nonzero_exit_empty_stderr_gives_empty (fun _ => .ran 1 "ignored" "")
    "myscript.sh" 1 "ignored" rfl (by decide)

end GeminiAssistant
